import Mathlib

/-!
Shallow embedding of the input-interpretation core of the rmk keyboard
firmware: the quadrature rotary-encoder decoder with its pluggable phase
classifier (src/rmk/src/input_device/rotary_encoder.rs) and the
layer-resolving keymap (src/rmk/src/keymap.rs).

Machine integers (`u8`, `usize`) are modelled as `Nat`; the `u8` cast
`layer_idx as u8` is modelled as `% 256`.  Fallible pin reads are modelled
as `Except Unit Bool` inputs; a Rust array index that could panic is
modelled as an `Option` result.
-/

namespace Rmk

/-- Modelled from the spec: `KeyAction` lives in `crate::action`, outside the
verified sources; the spec only requires an opaque variant set containing the
two distinguished members Transparent and No-op, with all other members
supplied by external collaborators (modelled by `Other`). -/
inductive KeyAction where
  | Transparent
  | No
  | Other (code : Nat)
deriving DecidableEq, Repr

/-- The encoder direction, from rotary_encoder.rs: `Clockwise`,
`CounterClockwise`, or `None`. -/
inductive Direction where
  | Clockwise
  | CounterClockwise
  | None
deriving DecidableEq, Repr

/-- Embedding of `DefaultPhase::direction` in rotary_encoder.rs: the fixed
lookup match on the 4-bit transition code `s`. -/
def DefaultPhase.direction (s : Nat) : Direction :=
  if s = 0b0001 ∨ s = 0b0111 ∨ s = 0b1000 ∨ s = 0b1110 then
    Direction.Clockwise
  else if s = 0b0010 ∨ s = 0b0100 ∨ s = 0b1011 ∨ s = 0b1101 then
    Direction.CounterClockwise
  else
    Direction.None

/-- Embedding of `RotaryEncoder` from rotary_encoder.rs: the two pins are
modelled as inputs supplied per call, the phase policy as a function
argument, so only the 2-bit history register `state` and the two configured
(row, col) positions remain as data. -/
structure RotaryEncoder where
  state : Nat
  clockwise_pos : Nat × Nat
  counter_clockwise_pos : Nat × Nat
deriving DecidableEq, Repr

/-- Embedding of `RotaryEncoder::update`: `ra`/`rb` are the results of
`pin_a.is_low()` / `pin_b.is_low()`; `phase` is the held `Phase` policy.
`state & 0b11` is `% 4`, `|= 0b0100` adds 4, `|= 0b1000` adds 8 (the summands
are at disjoint bit positions), and `s >> 2` is `/ 4`.  Returns the
classified direction together with the encoder after the call. -/
def RotaryEncoder.update (enc : RotaryEncoder) (phase : Nat → Direction)
    (ra rb : Except Unit Bool) : Direction × RotaryEncoder :=
  let s := enc.state % 4
  match ra with
  | Except.error _ => (Direction.None, enc)
  | Except.ok a =>
    match rb with
    | Except.error _ => (Direction.None, enc)
    | Except.ok b =>
      let s := s + (if a then 4 else 0) + (if b then 8 else 0)
      (phase s, { enc with state := s / 4 })

/-- Modelled from the spec: `KeyEvent` lives in `crate::event`, outside the
verified sources; the spec defines it as {row, column: small unsigned;
pressed: boolean}, matching the fields the encoder task constructs. -/
structure KeyEvent where
  row : Nat
  col : Nat
  pressed : Bool
deriving DecidableEq, Repr

/-- Embedding of the body of one iteration of `InputDevice::run` for
`RotaryEncoder` in rotary_encoder.rs: call `update`, map the direction to a
configured position (or, for `None`, `continue` without emitting), then send
a press event followed by a release event at that position.  The suspension
points (edge wait / 20 ms tick, 10 ms gap, channel backpressure) carry no
data and are abstracted away; the two channel sends become the returned
emission list, in send order. -/
def RotaryEncoder.runIteration (enc : RotaryEncoder) (phase : Nat → Direction)
    (ra rb : Except Unit Bool) : RotaryEncoder × List KeyEvent :=
  let (dir, enc') := enc.update phase ra rb
  match dir with
  | Direction.Clockwise =>
    (enc', [⟨enc'.clockwise_pos.1, enc'.clockwise_pos.2, true⟩,
            ⟨enc'.clockwise_pos.1, enc'.clockwise_pos.2, false⟩])
  | Direction.CounterClockwise =>
    (enc', [⟨enc'.counter_clockwise_pos.1, enc'.counter_clockwise_pos.2, true⟩,
            ⟨enc'.counter_clockwise_pos.1, enc'.counter_clockwise_pos.2, false⟩])
  | Direction.None => (enc', [])

/-- Embedding of `KeyMap<ROW, COL, NUM_LAYER>` from keymap.rs.  The three
fixed-size arrays become functions out of `Fin`; `layer_cache` holds `u8`
values, modelled as `Nat`. -/
structure KeyMap (ROW COL NUM_LAYER : Nat) where
  layers : Fin NUM_LAYER → Fin ROW → Fin COL → KeyAction
  layer_state : Fin NUM_LAYER → Bool
  default_layer : Nat
  layer_cache : Fin ROW → Fin COL → Nat

variable {ROW COL NUM_LAYER : Nat}

/-- Embedding of `KeyMap::new`: all layers active, default layer 0, cache all
zero. -/
def KeyMap.new (action_map : Fin NUM_LAYER → Fin ROW → Fin COL → KeyAction) :
    KeyMap ROW COL NUM_LAYER :=
  { layers := action_map
    layer_state := fun _ => true
    default_layer := 0
    layer_cache := fun _ _ => 0 }

/-- Embedding of `KeyMap::get_layer_from_cache`. -/
def KeyMap.get_layer_from_cache (km : KeyMap ROW COL NUM_LAYER)
    (row : Fin ROW) (col : Fin COL) : Nat :=
  km.layer_cache row col

/-- Embedding of `KeyMap::save_layer_cache`; the `layer_num` argument is a
`u8` in the source, so the caller passes the truncated value. -/
def KeyMap.save_layer_cache (km : KeyMap ROW COL NUM_LAYER)
    (row : Fin ROW) (col : Fin COL) (layer_num : Nat) : KeyMap ROW COL NUM_LAYER :=
  { km with
    layer_cache := fun r c =>
      if r = row ∧ c = col then layer_num else km.layer_cache r c }

/-- Embedding of the release-path `for (layer_idx, layer) in
self.layers.iter().rev().enumerate()` loop of `KeyMap::get_action`: the loop
visits scan indices `layer_idx = 0, 1, …` in order; at scan index `i` the
iterated element is `layers[NUM_LAYER - 1 - i]`, i.e. `layers (Fin.rev i)`,
while the active check reads `layer_state[layer_idx]`.  Returns the first
resolved action together with the `layer_idx` that the loop caches, or `none`
when the loop exhausts the list. -/
def KeyMap.scanLayers (km : KeyMap ROW COL NUM_LAYER) (row : Fin ROW)
    (col : Fin COL) : List (Fin NUM_LAYER) → Option (KeyAction × Nat)
  | [] => none
  | i :: rest =>
    if km.layer_state i then
      if km.layers (Fin.rev i) row col = KeyAction.Transparent ∨
          km.layers (Fin.rev i) row col = KeyAction.No then
        km.scanLayers row col rest
      else
        some (km.layers (Fin.rev i) row col, i.val)
    else
      km.scanLayers row col rest

/-- The full downward scan of `KeyMap::get_action`, over all scan indices in
loop order. -/
def KeyMap.scan (km : KeyMap ROW COL NUM_LAYER) (row : Fin ROW)
    (col : Fin COL) : Option (KeyAction × Nat) :=
  km.scanLayers row col (List.finRange NUM_LAYER)

/-- Embedding of `KeyMap::get_action`.  On a press the cached layer value
indexes `self.layers`; an out-of-range value would panic in Rust, modelled as
`none`.  On a release the scan either resolves an action, caching
`layer_idx as u8` (`% 256`), or exhausts and yields `KeyAction::No` with the
map unchanged.  Returns the action together with the map after the call. -/
def KeyMap.get_action (km : KeyMap ROW COL NUM_LAYER) (row : Fin ROW)
    (col : Fin COL) (pressed : Bool) :
    Option KeyAction × KeyMap ROW COL NUM_LAYER :=
  if pressed then
    let layer := km.get_layer_from_cache row col
    if h : layer < NUM_LAYER then
      (some (km.layers ⟨layer, h⟩ row col), km)
    else
      (none, km)
  else
    match km.scan row col with
    | some (action, layer_idx) =>
      (some action, km.save_layer_cache row col (layer_idx % 256))
    | none => (some KeyAction.No, km)

/-- Embedding of `KeyMap::activate_layer`; the returned Bool records whether
the warning diagnostic was emitted (the out-of-range early return). -/
def KeyMap.activate_layer (km : KeyMap ROW COL NUM_LAYER) (layer_num : Nat) :
    KeyMap ROW COL NUM_LAYER × Bool :=
  if h : layer_num < NUM_LAYER then
    ({ km with
       layer_state := fun i =>
         if i = ⟨layer_num, h⟩ then true else km.layer_state i }, false)
  else
    (km, true)

/-- Embedding of `KeyMap::deactivate_layer`; the returned Bool records whether
the warning diagnostic was emitted (the out-of-range early return). -/
def KeyMap.deactivate_layer (km : KeyMap ROW COL NUM_LAYER) (layer_num : Nat) :
    KeyMap ROW COL NUM_LAYER × Bool :=
  if h : layer_num < NUM_LAYER then
    ({ km with
       layer_state := fun i =>
         if i = ⟨layer_num, h⟩ then false else km.layer_state i }, false)
  else
    (km, true)

end Rmk

namespace Rmk

/-! Concrete instances used by counterexamples and witnesses. -/

/-- A 1×1×2 keymap: layer 0 holds `a0`, layer 1 holds `a1`. -/
def mk112 (a0 a1 : KeyAction) : KeyMap 1 1 2 :=
  KeyMap.new (fun l _ _ => if l.val = 0 then a0 else a1)

/-- The 1×1×2 keymap of the spec's press/release consistency scenario:
layer 0 holds a concrete action, layer 1 holds Transparent, both active. -/
def km1 : KeyMap 1 1 2 := mk112 (KeyAction.Other 0) KeyAction.Transparent

/-- `km1` after `deactivate_layer 0`: `layer_state = [false, true]`. -/
def km3 : KeyMap 1 1 2 := (km1.deactivate_layer 0).1

/-- A 1×1×2 keymap with layer 0 Transparent and layer 1 concrete, after
`deactivate_layer 1`: the only active layer (by true index) is layer 0,
whose sole action is Transparent. -/
def km6 : KeyMap 1 1 2 :=
  ((mk112 KeyAction.Transparent (KeyAction.Other 0)).deactivate_layer 1).1

/-- A 1×1×2 keymap whose every action is Transparent. -/
def kmT : KeyMap 1 1 2 := mk112 KeyAction.Transparent KeyAction.Transparent

/-- A concrete encoder configuration for witnesses. -/
def encEx : RotaryEncoder := { state := 1, clockwise_pos := (2, 3), counter_clockwise_pos := (4, 5) }

/-! Helper observers and lemmas about the embedded operations. -/

/-- The 2-bit value of one (pin A is low, pin B is low) reading: bit 0 is
set when pin A is low, bit 1 when pin B is low. -/
def reading2 (r : Bool × Bool) : Nat :=
  (if r.1 then 1 else 0) + (if r.2 then 2 else 0)

/-- The 4-bit code `update` builds from the stored history `st` (low two
bits, masked) and the current reading (high two bits). -/
def code4 (st : Nat) (r : Bool × Bool) : Nat :=
  st % 4 + (if r.1 then 4 else 0) + (if r.2 then 8 else 0)

/-- The encoder state reached after a list of successful samplings, in call
order. -/
def runReads (phase : Nat → Direction) (enc : RotaryEncoder) :
    List (Bool × Bool) → RotaryEncoder
  | [] => enc
  | r :: rs => runReads phase (enc.update phase (Except.ok r.1) (Except.ok r.2)).2 rs

theorem code4_of_le (st : Nat) (hst : st ≤ 3) (r : Bool × Bool) :
    code4 st r = st + 4 * reading2 r := by
  rcases r with ⟨a, b⟩
  cases a <;> cases b <;> simp [code4, reading2] <;> omega

theorem update_ok (enc : RotaryEncoder) (phase : Nat → Direction) (a b : Bool) :
    enc.update phase (Except.ok a) (Except.ok b) =
      (phase (code4 enc.state (a, b)), { enc with state := reading2 (a, b) }) := by
  have h : code4 enc.state (a, b) / 4 = reading2 (a, b) := by
    cases a <;> cases b <;> simp [code4, reading2] <;> omega
  simp only [RotaryEncoder.update, code4] at h ⊢
  rw [h]

theorem runReads_append_single (phase : Nat → Direction) (enc : RotaryEncoder)
    (pre : List (Bool × Bool)) (r : Bool × Bool) :
    runReads phase enc (pre ++ [r]) =
      ((runReads phase enc pre).update phase (Except.ok r.1) (Except.ok r.2)).2 := by
  induction pre generalizing enc with
  | nil => rfl
  | cons x xs ih => exact ih ((enc.update phase (Except.ok x.1) (Except.ok x.2)).2)

theorem scanLayers_some {ROW COL NUM_LAYER : Nat} {km : KeyMap ROW COL NUM_LAYER}
    {row : Fin ROW} {col : Fin COL} {l : List (Fin NUM_LAYER)} {a : KeyAction} {s : Nat}
    (h : km.scanLayers row col l = some (a, s)) :
    ∃ i ∈ l, km.layer_state i = true ∧ a = km.layers (Fin.rev i) row col ∧
      a ≠ KeyAction.Transparent ∧ a ≠ KeyAction.No ∧ s = i.val := by
  induction l with
  | nil => simp [KeyMap.scanLayers] at h
  | cons i rest ih =>
    simp only [KeyMap.scanLayers] at h
    by_cases hst : km.layer_state i = true
    · rw [if_pos hst] at h
      by_cases htn : km.layers (Fin.rev i) row col = KeyAction.Transparent ∨
          km.layers (Fin.rev i) row col = KeyAction.No
      · rw [if_pos htn] at h
        obtain ⟨j, hj, hrest⟩ := ih h
        exact ⟨j, List.mem_cons_of_mem i hj, hrest⟩
      · rw [if_neg htn] at h
        have h' := Option.some.inj h
        injection h' with ha hs
        subst ha
        subst hs
        exact ⟨i, List.mem_cons_self i rest, hst, rfl,
          fun hc => htn (Or.inl hc), fun hc => htn (Or.inr hc), rfl⟩
    · rw [if_neg hst] at h
      obtain ⟨j, hj, hrest⟩ := ih h
      exact ⟨j, List.mem_cons_of_mem i hj, hrest⟩

theorem scanLayers_none {ROW COL NUM_LAYER : Nat} (km : KeyMap ROW COL NUM_LAYER)
    (row : Fin ROW) (col : Fin COL) (l : List (Fin NUM_LAYER))
    (h : ∀ i ∈ l, km.layer_state i = true →
      km.layers (Fin.rev i) row col = KeyAction.Transparent ∨
      km.layers (Fin.rev i) row col = KeyAction.No) :
    km.scanLayers row col l = none := by
  induction l with
  | nil => rfl
  | cons i rest ih =>
    simp only [KeyMap.scanLayers]
    by_cases hst : km.layer_state i
    · have := h i (List.mem_cons_self i rest) hst
      simp only [hst, if_true, this, if_true]
      exact ih fun j hj => h j (List.mem_cons_of_mem i hj)
    · simp only [Bool.not_eq_true] at hst
      simp only [hst, if_false]
      exact ih fun j hj => h j (List.mem_cons_of_mem i hj)

end Rmk

namespace Rmk

/-- C2: for every 4-bit code s (0 ≤ s ≤ 15), `DefaultPhase.direction` returns
Clockwise exactly on {1, 7, 8, 14}, CounterClockwise exactly on
{2, 4, 11, 13}, and None exactly on the remaining 8 codes. -/
theorem c2_default_phase_classification (s : Nat) (h : s ≤ 15) :
    (DefaultPhase.direction s = Direction.Clockwise ↔
      (s = 1 ∨ s = 7 ∨ s = 8 ∨ s = 14)) ∧
    (DefaultPhase.direction s = Direction.CounterClockwise ↔
      (s = 2 ∨ s = 4 ∨ s = 11 ∨ s = 13)) ∧
    (DefaultPhase.direction s = Direction.None ↔
      ¬(s = 1 ∨ s = 7 ∨ s = 8 ∨ s = 14 ∨ s = 2 ∨ s = 4 ∨ s = 11 ∨ s = 13)) := by
  interval_cases s <;> exact ⟨by decide, by decide, by decide⟩

/-- Witness for C2 at the concrete code 7. -/
theorem c2_default_phase_classification_witness :
    DefaultPhase.direction 7 = Direction.Clockwise :=
  (c2_default_phase_classification 7 (by decide)).1.2 (by decide)

/-- C4: if either pin read fails, `update` returns Direction.None and the
encoder (in particular its 2-bit history register `state`) is unchanged; no
partial update occurs. -/
theorem c4_read_failure_leaves_history (enc : RotaryEncoder)
    (phase : Nat → Direction) (e : Unit) (r : Except Unit Bool) :
    enc.update phase (Except.error e) r = (Direction.None, enc) ∧
    enc.update phase r (Except.error e) = (Direction.None, enc) := by
  cases r <;> exact ⟨rfl, rfl⟩

/-- C5: along any finite sequence of successful samplings, after each call
the history register holds exactly the 2-bit value of that call's reading
(bit 0 set when pin A is low, bit 1 when pin B is low, hence at most 3), and
the 4-bit code classified by the next successful call has that value as its
two low bits and the next reading as its two high bits. -/
theorem c5_history_carry_over (phase : Nat → Direction) (enc0 : RotaryEncoder)
    (pre : List (Bool × Bool)) (r rNext : Bool × Bool) :
    (runReads phase enc0 (pre ++ [r])).state = reading2 r ∧
    reading2 r ≤ 3 ∧
    ((runReads phase enc0 (pre ++ [r])).update phase
        (Except.ok rNext.1) (Except.ok rNext.2)).1 =
      phase (reading2 r + 4 * reading2 rNext) := by
  have hs : (runReads phase enc0 (pre ++ [r])).state = reading2 r := by
    rw [runReads_append_single, update_ok]
  have hb : reading2 r ≤ 3 := by
    rcases r with ⟨a, b⟩; cases a <;> cases b <;> decide
  refine ⟨hs, hb, ?_⟩
  rw [update_ok, hs, code4_of_le (reading2 r) hb rNext]

/-- C9: in one iteration of the encoder task loop, a Clockwise classification
emits exactly the press–release pair at the configured clockwise position, a
CounterClockwise classification exactly the pair at the counter-clockwise
position, and None emits nothing; every iteration emits either zero or two
events, press strictly before release at the same position. -/
theorem c9_one_pair_per_detent (enc : RotaryEncoder) (phase : Nat → Direction)
    (ra rb : Except Unit Bool) :
    ((enc.runIteration phase ra rb).2.length = 0 ∨
      (enc.runIteration phase ra rb).2.length = 2) ∧
    ((enc.update phase ra rb).1 = Direction.Clockwise →
      (enc.runIteration phase ra rb).2 =
        [⟨enc.clockwise_pos.1, enc.clockwise_pos.2, true⟩,
         ⟨enc.clockwise_pos.1, enc.clockwise_pos.2, false⟩]) ∧
    ((enc.update phase ra rb).1 = Direction.CounterClockwise →
      (enc.runIteration phase ra rb).2 =
        [⟨enc.counter_clockwise_pos.1, enc.counter_clockwise_pos.2, true⟩,
         ⟨enc.counter_clockwise_pos.1, enc.counter_clockwise_pos.2, false⟩]) ∧
    ((enc.update phase ra rb).1 = Direction.None →
      (enc.runIteration phase ra rb).2 = []) := by
  have hpos : (enc.update phase ra rb).2.clockwise_pos = enc.clockwise_pos ∧
      (enc.update phase ra rb).2.counter_clockwise_pos = enc.counter_clockwise_pos := by
    cases ra with
    | error e => exact ⟨rfl, rfl⟩
    | ok a => cases rb with
      | error e => exact ⟨rfl, rfl⟩
      | ok b => exact ⟨rfl, rfl⟩
  simp only [RotaryEncoder.runIteration]
  rcases hu : enc.update phase ra rb with ⟨dir, enc'⟩
  rw [hu] at hpos
  have h1 : enc'.clockwise_pos = enc.clockwise_pos := hpos.1
  have h2 : enc'.counter_clockwise_pos = enc.counter_clockwise_pos := hpos.2
  cases dir <;> simp [h1, h2]

/-- Witness for C9: a concrete iteration whose classification is Clockwise
emits the press–release pair at the configured clockwise position. -/
theorem c9_one_pair_per_detent_witness :
    (encEx.runIteration DefaultPhase.direction
        (Except.ok false) (Except.ok false)).2 =
      [⟨2, 3, true⟩, ⟨2, 3, false⟩] :=
  (c9_one_pair_per_detent encEx DefaultPhase.direction
    (Except.ok false) (Except.ok false)).2.1 (by decide)

end Rmk

namespace Rmk

variable {ROW COL NUM_LAYER : Nat}

/-- C1 counterexample: on the spec's 1×1×2 scenario (layer 0 concrete,
layer 1 Transparent, both active) the first release does return layer 0's
action, but it records the scan-order index 1 — not layer 0 — in
`layer_cache[0][0]`, and the subsequent press, indexing `layers` by that
cached value, returns layer 1's Transparent rather than the concrete action
the release returned. -/
theorem c1_counterexample :
    (km1.get_action 0 0 false).1 = some (KeyAction.Other 0) ∧
    ((km1.get_action 0 0 false).2).layer_cache 0 0 = 1 ∧
    ((km1.get_action 0 0 false).2).layer_cache 0 0 ≠ 0 ∧
    (((km1.get_action 0 0 false).2).get_action 0 0 true).1 =
      some KeyAction.Transparent ∧
    (((km1.get_action 0 0 false).2).get_action 0 0 true).1 ≠
      (km1.get_action 0 0 false).1 := by
  decide

/-- C1 (amended): for a 1×1×2 keymap with a concrete action on layer 0 and
Transparent on layer 1, both layers active, the first release returns
layer 0's action and records the scan-order index 1 (= NUM_LAYER − 1 − 0) in
`layer_cache[0][0]`; the subsequent press returns the action of the layer
whose true index equals that cached value, i.e. layer 1's Transparent. -/
theorem c1_release_caches_scan_index (a : KeyAction)
    (h1 : a ≠ KeyAction.Transparent) (h2 : a ≠ KeyAction.No) :
    (mk112 a KeyAction.Transparent).get_action 0 0 false =
      (some a, (mk112 a KeyAction.Transparent).save_layer_cache 0 0 1) ∧
    (((mk112 a KeyAction.Transparent).get_action 0 0 false).2).get_action 0 0 true =
      (some KeyAction.Transparent,
        ((mk112 a KeyAction.Transparent).get_action 0 0 false).2) := by
  cases a with
  | Transparent => exact absurd rfl h1
  | No => exact absurd rfl h2
  | Other n => exact ⟨rfl, rfl⟩

/-- Witness for the amended C1 at the concrete action `Other 5`. -/
theorem c1_release_caches_scan_index_witness :
    (mk112 (KeyAction.Other 5) KeyAction.Transparent).get_action 0 0 false =
      (some (KeyAction.Other 5),
        (mk112 (KeyAction.Other 5) KeyAction.Transparent).save_layer_cache 0 0 1) ∧
    (((mk112 (KeyAction.Other 5) KeyAction.Transparent).get_action 0 0 false).2).get_action
        0 0 true =
      (some KeyAction.Transparent,
        ((mk112 (KeyAction.Other 5) KeyAction.Transparent).get_action 0 0 false).2) :=
  c1_release_caches_scan_index (KeyAction.Other 5) (by decide) (by decide)

/-- C3 counterexample: in `km3`, layer 0 has been deactivated
(`layer_state 0 = false`), yet a release still resolves and returns the
action stored at `layers[0][0][0]`: the scan pairs the active flag at scan
index 1 (true layer 1) with the layer at true index 0. -/
theorem c3_counterexample :
    km3.layer_state 0 = false ∧
    km3.layers 0 0 0 = KeyAction.Other 0 ∧
    km3.scan 0 0 = some (KeyAction.Other 0, 1) ∧
    (km3.get_action 0 0 false).1 = some (km3.layers 0 0 0) := by
  decide

/-- C3 (amended): whenever the release scan resolves, the scan index `s` it
resolves at carries an active flag (`layer_state s = true`) and the resolved
action comes from the layer at true index NUM_LAYER − 1 − s (`Fin.rev`).
Hence a layer index i with `layer_state i = false` causes the scan to skip
the layer at true index NUM_LAYER − 1 − i — not `layers[i]` itself. -/
theorem c3_inactive_flag_skips_scan_position (km : KeyMap ROW COL NUM_LAYER)
    (row : Fin ROW) (col : Fin COL) (a : KeyAction) (s : Nat)
    (h : km.scan row col = some (a, s)) :
    ∃ hs : s < NUM_LAYER, km.layer_state ⟨s, hs⟩ = true ∧
      a = km.layers (Fin.rev ⟨s, hs⟩) row col ∧
      a ≠ KeyAction.Transparent ∧ a ≠ KeyAction.No := by
  obtain ⟨i, _, hst, ha, ht, hn, hs⟩ := scanLayers_some h
  subst hs
  exact ⟨i.isLt, by rw [Fin.eta]; exact hst, by rw [Fin.eta]; exact ha, ht, hn⟩

/-- Witness for the amended C3 on `km1`, whose scan resolves at scan
index 1. -/
theorem c3_inactive_flag_skips_scan_position_witness :
    ∃ hs : (1 : Nat) < 2, km1.layer_state ⟨1, hs⟩ = true ∧
      KeyAction.Other 0 = km1.layers (Fin.rev ⟨1, hs⟩) 0 0 ∧
      KeyAction.Other 0 ≠ KeyAction.Transparent ∧
      KeyAction.Other 0 ≠ KeyAction.No :=
  c3_inactive_flag_skips_scan_position km1 0 0 (KeyAction.Other 0) 1 (by decide)

end Rmk

namespace Rmk

variable {ROW COL NUM_LAYER : Nat}

/-- C6 counterexample: in `km6` every active layer (by true index: only
layer 0, whose action is Transparent) satisfies the claim's hypothesis, yet
a release returns the concrete action of the deactivated layer 1 instead of
No-op: the scan pairs the active flag of true layer 0 (scan index 0) with
the layer at true index 1. -/
theorem c6_counterexample :
    (∀ i : Fin 2, km6.layer_state i = true →
      km6.layers i 0 0 = KeyAction.Transparent ∨
      km6.layers i 0 0 = KeyAction.No) ∧
    (km6.get_action 0 0 false).1 = some (KeyAction.Other 0) ∧
    (km6.get_action 0 0 false).1 ≠ some KeyAction.No := by
  decide

/-- C6 (amended): if for every scan index i whose active flag is set the
action of the layer the scan pairs with it — `layers[NUM_LAYER − 1 − i]` at
(row, col) — is Transparent or No-op, then a release-path `get_action`
returns No-op and leaves the entire keymap, in particular `layer_cache`,
unchanged. -/
theorem c6_exhausted_scan_noop (km : KeyMap ROW COL NUM_LAYER)
    (row : Fin ROW) (col : Fin COL)
    (h : ∀ i : Fin NUM_LAYER, km.layer_state i = true →
      km.layers (Fin.rev i) row col = KeyAction.Transparent ∨
      km.layers (Fin.rev i) row col = KeyAction.No) :
    km.get_action row col false = (some KeyAction.No, km) := by
  have hscan : km.scan row col = none :=
    scanLayers_none km row col (List.finRange NUM_LAYER) fun i _ => h i
  simp [KeyMap.get_action, hscan]

/-- Witness for the amended C6 on the all-Transparent keymap `kmT`. -/
theorem c6_exhausted_scan_noop_witness :
    kmT.get_action 0 0 false = (some KeyAction.No, kmT) :=
  c6_exhausted_scan_noop kmT 0 0 (by decide)

/-- C7: `activate_layer`/`deactivate_layer` with `layer_num ≥ NUM_LAYER`
leave the keymap unchanged and emit the warning diagnostic (the Bool
component); with `layer_num < NUM_LAYER` they set exactly
`layer_state[layer_num]` to true/false, change nothing else, and emit no
warning; neither call returns an error in any case (both are total and
always yield a keymap). -/
theorem c7_layer_index_bounds (km : KeyMap ROW COL NUM_LAYER) (n : Nat) :
    (NUM_LAYER ≤ n →
      km.activate_layer n = (km, true) ∧ km.deactivate_layer n = (km, true)) ∧
    (∀ h : n < NUM_LAYER,
      km.activate_layer n =
        ({ km with layer_state := Function.update km.layer_state ⟨n, h⟩ true },
          false) ∧
      km.deactivate_layer n =
        ({ km with layer_state := Function.update km.layer_state ⟨n, h⟩ false },
          false)) := by
  constructor
  · intro h
    have h' : ¬n < NUM_LAYER := Nat.not_lt.mpr h
    constructor
    · simp [KeyMap.activate_layer, h']
    · simp [KeyMap.deactivate_layer, h']
  · intro h
    constructor
    · simp only [KeyMap.activate_layer, dif_pos h, Prod.mk.injEq, and_true]
      congr 1
      funext i
      rw [Function.update_apply]
    · simp only [KeyMap.deactivate_layer, dif_pos h, Prod.mk.injEq, and_true]
      congr 1
      funext i
      rw [Function.update_apply]

/-- Witness for C7: the out-of-range call with index 2 = NUM_LAYER on a
1×1×2 keymap is a warned no-op, and the in-range deactivation of layer 0
updates exactly that flag. -/
theorem c7_layer_index_bounds_witness :
    km1.activate_layer 2 = (km1, true) ∧
    km1.deactivate_layer 0 =
      ({ km1 with layer_state := Function.update km1.layer_state ⟨0, by decide⟩ false },
        false) :=
  ⟨((c7_layer_index_bounds km1 2).1 (by decide)).1,
    ((c7_layer_index_bounds km1 0).2 (by decide)).2⟩

/-- C8: a press-path `get_action` whose cached layer value is in range
returns `layers[layer_cache[row][col]][row][col]` and performs no scan and no
mutation: the keymap after the call is the keymap before it. -/
theorem c8_press_reads_cache_only (km : KeyMap ROW COL NUM_LAYER)
    (row : Fin ROW) (col : Fin COL)
    (h : km.get_layer_from_cache row col < NUM_LAYER) :
    km.get_action row col true =
      (some (km.layers ⟨km.get_layer_from_cache row col, h⟩ row col), km) := by
  simp [KeyMap.get_action, h]

/-- Witness for C8 on `km1`, whose cache holds 0 everywhere. -/
theorem c8_press_reads_cache_only_witness :
    km1.get_action 0 0 true = (some (km1.layers ⟨0, by decide⟩ 0 0), km1) :=
  c8_press_reads_cache_only km1 0 0 (by decide)

end Rmk

namespace Rmk

/-- The layer-cache bounds invariant of C10: every entry of `layer_cache` is
strictly less than NUM_LAYER, so the press path's `layers[cache]` index is in
range. -/
def CacheInv {ROW COL NUM_LAYER : Nat} (km : KeyMap ROW COL NUM_LAYER) : Prop :=
  ∀ (r : Fin ROW) (c : Fin COL), km.layer_cache r c < NUM_LAYER

/-- C10: for 1 ≤ NUM_LAYER ≤ 255 the invariant `CacheInv` holds after
construction and is preserved by `get_action`, `activate_layer` and
`deactivate_layer`; consequently the press-path lookup
`layers[layer_cache[row][col]]` always succeeds (never indexes out of the
layer dimension). -/
theorem c10_cache_invariant (R C L : Nat) (h1 : 1 ≤ L) (h2 : L ≤ 255) :
    (∀ am : Fin L → Fin R → Fin C → KeyAction, CacheInv (KeyMap.new am)) ∧
    (∀ (km : KeyMap R C L) (row : Fin R) (col : Fin C) (pressed : Bool),
      CacheInv km → CacheInv (km.get_action row col pressed).2) ∧
    (∀ (km : KeyMap R C L) (n : Nat), CacheInv km →
      CacheInv (km.activate_layer n).1 ∧ CacheInv (km.deactivate_layer n).1) ∧
    (∀ (km : KeyMap R C L) (row : Fin R) (col : Fin C), CacheInv km →
      ((km.get_action row col true).1).isSome = true) := by
  refine ⟨?_, ?_, ?_, ?_⟩
  · intro am r c
    simpa [KeyMap.new, CacheInv] using h1
  · intro km row col pressed hinv
    unfold KeyMap.get_action
    split
    · dsimp only
      split
      · exact hinv
      · exact hinv
    · cases hscan : km.scan row col with
      | none => exact hinv
      | some p =>
        rcases p with ⟨a, s⟩
        have hscan' : km.scanLayers row col (List.finRange L) = some (a, s) := hscan
        obtain ⟨i, -, -, -, -, -, hs⟩ := scanLayers_some hscan'
        subst hs
        intro r c
        simp only [KeyMap.save_layer_cache]
        split
        · have hm : i.val % 256 = i.val := by
            have := i.isLt
            omega
          rw [hm]
          exact i.isLt
        · exact hinv r c
  · intro km n hinv
    constructor
    · intro r c
      unfold KeyMap.activate_layer
      split
      · exact hinv r c
      · exact hinv r c
    · intro r c
      unfold KeyMap.deactivate_layer
      split
      · exact hinv r c
      · exact hinv r c
  · intro km row col hinv
    have h := hinv row col
    simp [KeyMap.get_action, KeyMap.get_layer_from_cache, h]

/-- Witness for C10: on `km1` the press-path lookup succeeds. -/
theorem c10_cache_invariant_witness :
    ((km1.get_action 0 0 true).1).isSome = true :=
  (c10_cache_invariant 1 1 2 (by decide) (by decide)).2.2.2 km1 0 0
    (by intro r c; exact Nat.succ_pos 1)

end Rmk
